import Mathlib

/-!
Shallow embedding of the session-convergence core of the `qa-automation-ui`
repository, together with proofs about it.

Embedded source files:
* `src/logic/quicksetStatus.ts` — the Verdict Reconciler
  (`isAnalyzerResultReady`, `normalizeBrandValue`, `brandsAreDifferent`,
  `isMetricTriState`, `resolveMetricStatus`, `deriveMetricStatuses`).
* `src/components/QuicksetSessionSummary.tsx` — the derived booleans
  `conflictDetected` and `telemetryWarning` that gate the conflict section
  and the telemetry warning in the rendered output.
* `src/hooks/useSessionPolling.ts` — the polling driver, embedded as an
  explicit state machine (`PollState`, `PollEvent`, `pollStep`): each event
  is one resumption of the hook's cooperative scheduler (an effect re-run on
  a pair switch, a fetch resolution, a timer firing, or an external
  `setData`/`replaceData` injection).

Tri-state metric values are kept as plain strings, exactly as the
TypeScript runtime handles them: the source reads the metric fields at type
`unknown` and guards them with the `isMetricTriState` predicate, so values
outside the four recognized tri-states are representable.  `EvVal` models a
present JavaScript runtime value that is either a string or some non-string
value (`EvVal.other`); `none` models `null`/`undefined`, which is what the
optional-chaining and `??` operators skip.
-/

/-- A present JavaScript value as seen by the defensive guards of the
source: either a string, or any non-string value (number, object, ...),
which every guard in the embedded code treats uniformly. -/
inductive EvVal where
  | str (s : String)
  | other
deriving DecidableEq, Repr

/-- Evidence record (`Record<string, unknown>`) restricted to the keys the
Reconciler actually reads: `tv_brand_user`, `tv_brand_detected`,
`tv_brand_log`.  Absent or `null` keys are `none`. -/
structure Evidence where
  tv_brand_user : Option EvVal := none
  tv_brand_detected : Option EvVal := none
  tv_brand_log : Option EvVal := none
deriving DecidableEq, Repr

/-- `QuicksetAnalysisDetails` from `src/types/quickset.ts`, restricted to
the fields the embedded code reads.  The analyzer metric fields
(`brand_status`, `volume_status`, `osd_status`) are included because the
`analysis_result` payload attached to a session has type
`QuicksetAnalysisDetails & AnalyzerMetricFields`, and because the type has
an index signature so the fields are present (possibly malformed) at
runtime; they are modelled at the runtime type `unknown` via `Option EvVal`. -/
structure QuicksetAnalysisDetails where
  failed_steps : Option (List String) := none
  evidence : Option Evidence := none
  tester_verdict : Option String := none
  log_verdict : Option String := none
  conflict_tester_vs_logs : Option Bool := none
  brand_status : Option EvVal := none
  volume_status : Option EvVal := none
  osd_status : Option EvVal := none
deriving DecidableEq, Repr

/-- `TvAutoSyncSession` from `src/types/quickset.ts`, restricted to the
fields the embedded code reads.  The three metric fields are modelled at
runtime type `unknown` (`Option EvVal`) since the source guards them with
`isMetricTriState`; `analysis_result` is the optional analyzer payload that
`deriveMetricStatuses` reads off the session. -/
structure TvAutoSyncSession where
  session_id : String := ""
  scenario_name : String := "TV_AUTO_SYNC"
  started_at : Option String := none
  finished_at : Option String := none
  overall_status : String := "PENDING"
  has_failure : Bool := false
  brand_mismatch : Bool := false
  tv_brand_user : Option String := none
  tv_brand_log : Option String := none
  has_volume_issue : Bool := false
  has_osd_issue : Bool := false
  brand_status : Option EvVal := none
  volume_status : Option EvVal := none
  osd_status : Option EvVal := none
  analyzer_ready : Option Bool := none
  analysis_result : Option QuicksetAnalysisDetails := none
deriving DecidableEq, Repr

/-- Character-level model of the whitespace removed by JavaScript
`String.prototype.trim` (restricted to the ASCII whitespace characters). -/
def isJsWhitespace (c : Char) : Bool :=
  c == ' ' || c == '\t' || c == '\n' || c == '\r'

/-- Character-level model of JavaScript `String.prototype.toLowerCase`
(ASCII range). -/
def toLowerChar (c : Char) : Char :=
  if c.toNat ≥ 65 && c.toNat ≤ 90 then Char.ofNat (c.toNat + 32) else c

/-- JavaScript `value.toLowerCase()`. -/
def jsToLower (s : String) : String :=
  String.mk (s.data.map toLowerChar)

/-- JavaScript `value.trim()`. -/
def jsTrim (s : String) : String :=
  String.mk (((s.data.dropWhile isJsWhitespace).reverse.dropWhile isJsWhitespace).reverse)

/-- `isAnalyzerResultReady` (src/logic/quicksetStatus.ts):
`session.analyzer_ready === true || session.overall_status === 'PASS' ||
session.overall_status === 'FAIL'`. -/
def isAnalyzerResultReady (session : TvAutoSyncSession) : Bool :=
  session.analyzer_ready == some true ||
    session.overall_status == "PASS" || session.overall_status == "FAIL"

/-- `normalizeBrandValue` (src/logic/quicksetStatus.ts): non-strings map to
`null`; strings are trimmed and empty results map to `null`. -/
def normalizeBrandValue : Option EvVal → Option String
  | some (EvVal.str s) =>
      let trimmed := jsTrim s
      if trimmed = "" then none else some trimmed
  | _ => none

/-- `brandsAreDifferent` (src/logic/quicksetStatus.ts): false when either
side is absent or falsy (the empty string), otherwise a case-insensitive
inequality test. -/
def brandsAreDifferent : Option String → Option String → Bool
  | some userBrand, some logBrand =>
      if userBrand = "" then false
      else if logBrand = "" then false
      else jsToLower userBrand != jsToLower logBrand
  | _, _ => false

/-- The four recognized tri-state strings
(`MetricTriState` in src/types/quickset.ts). -/
def isTriStateString (v : String) : Bool :=
  v == "OK" || v == "FAIL" || v == "INCOMPATIBILITY" || v == "NOT_EVALUATED"

/-- The value of a runtime field when the `isMetricTriState` type guard
(src/logic/quicksetStatus.ts) accepts it, `none` when it rejects it. -/
def triStateOf : Option EvVal → Option String
  | some (EvVal.str v) => if isTriStateString v then some v else none
  | _ => none

/-- `isMetricTriState` (src/logic/quicksetStatus.ts): the type guard used
on the `unknown`-typed metric fields. -/
def isMetricTriState (v : Option EvVal) : Bool :=
  (triStateOf v).isSome

/-- `resolveMetricStatus` (src/logic/quicksetStatus.ts): session-level
tri-state first, then the analyzer-payload tri-state, then `NOT_EVALUATED`
while unready, then the boolean issue-flag fallback. -/
def resolveMetricStatus (sessionValue analysisValue : Option EvVal)
    (analyzerReady : Bool) (fallbackIssue : Bool) : String :=
  match triStateOf sessionValue with
  | some v => v
  | none =>
    match triStateOf analysisValue with
    | some v => v
    | none =>
      if !analyzerReady then "NOT_EVALUATED"
      else if fallbackIssue then "FAIL" else "OK"

/-- `MetricStatusesResult` (src/logic/quicksetStatus.ts). -/
structure MetricStatusesResult where
  analyzerReady : Bool
  brandStatus : String
  volumeStatus : String
  osdStatus : String
  preferredUserBrand : Option String
  preferredLogBrand : Option String
  hasBrandMismatch : Bool
deriving DecidableEq, Repr

/-- `deriveMetricStatuses` (src/logic/quicksetStatus.ts): the Verdict
Reconciler.  Reads the `analysis_result` payload off the session, the
optional `analysisDetails` argument, computes the brand-mismatch heuristics
and the three metric statuses. -/
def deriveMetricStatuses (session : TvAutoSyncSession)
    (analysisDetails : Option QuicksetAnalysisDetails) : MetricStatusesResult :=
  let analyzerReady := isAnalyzerResultReady session
  let analysisResultPayload := session.analysis_result
  let failedSteps :=
    ((analysisResultPayload.bind fun p => p.failed_steps).orElse fun _ =>
      analysisDetails.bind fun d => d.failed_steps).getD []
  let brandStepFailed := failedSteps.contains "question_tv_brand_ui"
  let evidenceFromPayload := analysisResultPayload.bind fun p => p.evidence
  let evidenceFromDetails := analysisDetails.bind fun d => d.evidence
  let sessionUserBrand := normalizeBrandValue (session.tv_brand_user.map EvVal.str)
  let sessionLogBrand := normalizeBrandValue (session.tv_brand_log.map EvVal.str)
  let evidenceUserBrand := normalizeBrandValue
    ((evidenceFromPayload.bind fun e => e.tv_brand_user).orElse fun _ =>
      evidenceFromDetails.bind fun e => e.tv_brand_user)
  let evidenceLogBrand := normalizeBrandValue
    ((((evidenceFromPayload.bind fun e => e.tv_brand_detected).orElse fun _ =>
        evidenceFromPayload.bind fun e => e.tv_brand_log).orElse fun _ =>
      evidenceFromDetails.bind fun e => e.tv_brand_detected).orElse fun _ =>
        evidenceFromDetails.bind fun e => e.tv_brand_log)
  let preferredUserBrand := sessionUserBrand.orElse fun _ => evidenceUserBrand
  let preferredLogBrand := sessionLogBrand.orElse fun _ => evidenceLogBrand
  let hasSessionPairMismatch := brandsAreDifferent sessionUserBrand sessionLogBrand
  let hasDerivedMismatch :=
    !hasSessionPairMismatch && brandsAreDifferent preferredUserBrand preferredLogBrand
  let hasBrandMismatch :=
    session.brand_mismatch || brandStepFailed || hasSessionPairMismatch || hasDerivedMismatch
  let brandStatus :=
    if !analyzerReady then "NOT_EVALUATED"
    else if hasBrandMismatch then "INCOMPATIBILITY"
    else "OK"
  let volumeStatus := resolveMetricStatus session.volume_status
    (analysisResultPayload.bind fun p => p.volume_status) analyzerReady session.has_volume_issue
  let osdStatus := resolveMetricStatus session.osd_status
    (analysisResultPayload.bind fun p => p.osd_status) analyzerReady session.has_osd_issue
  { analyzerReady := analyzerReady
    brandStatus := brandStatus
    volumeStatus := volumeStatus
    osdStatus := osdStatus
    preferredUserBrand := preferredUserBrand
    preferredLogBrand := preferredLogBrand
    hasBrandMismatch := hasBrandMismatch }

/-- `conflictDetected` (src/components/QuicksetSessionSummary.tsx, line
228): `Boolean(analysisDetails?.conflict_tester_vs_logs)`. -/
def conflictDetected (analysisDetails : Option QuicksetAnalysisDetails) : Bool :=
  (analysisDetails.bind fun d => d.conflict_tester_vs_logs).getD false

/-- `logVerdict` (src/components/QuicksetSessionSummary.tsx):
`analysisDetails?.log_verdict ?? 'UNKNOWN'`. -/
def logVerdict (analysisDetails : Option QuicksetAnalysisDetails) : String :=
  (analysisDetails.bind fun d => d.log_verdict).getD "UNKNOWN"

/-- `testerVerdict` (src/components/QuicksetSessionSummary.tsx):
`analysisDetails?.tester_verdict ?? 'UNKNOWN'`. -/
def testerVerdict (analysisDetails : Option QuicksetAnalysisDetails) : String :=
  (analysisDetails.bind fun d => d.tester_verdict).getD "UNKNOWN"

/-- `telemetryWarning` (src/components/QuicksetSessionSummary.tsx, line
229): `!conflictDetected && logVerdict === 'INCONCLUSIVE'`. -/
def telemetryWarning (analysisDetails : Option QuicksetAnalysisDetails) : Bool :=
  !conflictDetected analysisDetails && logVerdict analysisDetails == "INCONCLUSIVE"

/-- `TvAutoSyncSessionResponse` (src/types/quickset.ts) restricted to the
fields the polling driver reads. -/
structure TvAutoSyncSessionResponse where
  session : TvAutoSyncSession
  has_failure : Bool := false
deriving DecidableEq, Repr

/-- JavaScript `Boolean(value)` on an optional string: `null`, `undefined`
and the empty string are falsy. -/
def truthyString : Option String → Bool
  | some s => !(s == "")
  | none => false

/-- `isComplete` (src/hooks/useSessionPolling.ts, lines 35-41):
`Boolean(payload.session.finished_at) && payload.session.analyzer_ready === true`,
with `false` for a `null` payload. -/
def isComplete : Option TvAutoSyncSessionResponse → Bool
  | none => false
  | some payload =>
      truthyString payload.session.finished_at && payload.session.analyzer_ready == some true

/-- Observable state of one mounted `useSessionPolling` hook:
`generation` is `generationRef.current`, `data`/`error` the two React
states, `completed` is `completedRef.current`, `timerArmed` records whether
`timerRef` holds a pending `setTimeout`, and `fetchCount` counts how many
times `getSession` has been invoked. -/
structure PollState where
  generation : Nat := 0
  data : Option TvAutoSyncSessionResponse := none
  error : Option String := none
  completed : Bool := false
  timerArmed : Bool := false
  fetchCount : Nat := 0
deriving DecidableEq, Repr

/-- The hook before its first effect run. -/
def initialPollState : PollState := {}

/-- One resumption of the hook's cooperative scheduler
(src/hooks/useSessionPolling.ts):
* `switch valid` — the `[sessionId, apiKey]` effect re-runs because the
  pair changed (previous effect's cleanup ran: `cancelled := true`, abort,
  clear timer).  `valid` tells whether the new pair is non-null; a non-null
  pair starts an immediate `poll()`, a null pair clears `data`/`error`.
  Unmount is the `valid = false` shape without a restart, which this model
  folds into the same event since no later event of that pair follows.
* `resolveOk g r` — the fetch issued under generation `g` resolved with
  response `r`.
* `resolveErr g msg` — the fetch issued under generation `g` rejected and
  its error was rendered to the message `msg`.
* `timerFire` — the pending 2000 ms retry timer fired and called `poll()`.
* `inject v` — an external caller invoked the exposed `setData`
  (`replaceData`) and the updater resolved to the value `v`. -/
inductive PollEvent where
  | switch (valid : Bool)
  | resolveOk (g : Nat) (r : TvAutoSyncSessionResponse)
  | resolveErr (g : Nat) (msg : String)
  | timerFire
  | inject (v : Option TvAutoSyncSessionResponse)
deriving DecidableEq, Repr

/-- Transition function of the polling driver.  Each branch transcribes the
corresponding code path of src/hooks/useSessionPolling.ts:
* `switch`: `generationRef.current += 1`, `abortInFlight()`, `clearTimer()`,
  `completedRef.current = false`, then either `poll()` (one fetch) for a
  non-null pair or `setData(null); setError(null)` for a null pair.
* `resolveOk`: the guard `cancelled || currentGeneration !== generationRef.current`
  discards a stale arrival (a cleaned-up effect always has a bumped
  generation, so the generation test subsumes `cancelled`).  A fresh
  arrival runs `setData(response); setError(null)`; a complete response
  sets `completedRef` and clears the timer; the `finally` block re-arms the
  timer only when `completedRef.current` is still false.
* `resolveErr`: same staleness guard (an abort implies a bumped
  generation); a fresh failure runs `setError(message)` and the `finally`
  block re-arms unless completed.
* `timerFire`: a pending timer fires, consuming itself and issuing one
  fetch via `poll()`.
* `inject`: `replaceData` stores the resolved value and, when it is
  complete, sets `completedRef` and clears the timer. -/
def pollStep (s : PollState) : PollEvent → PollState
  | .switch valid =>
      if valid then
        { s with generation := s.generation + 1, timerArmed := false,
                 completed := false, fetchCount := s.fetchCount + 1 }
      else
        { s with generation := s.generation + 1, timerArmed := false,
                 completed := false, data := none, error := none }
  | .resolveOk g r =>
      if g = s.generation then
        let done := isComplete (some r)
        { s with data := some r, error := none,
                 completed := s.completed || done,
                 timerArmed := if done then false
                               else if s.completed then s.timerArmed else true }
      else s
  | .resolveErr g msg =>
      if g = s.generation then
        { s with error := some msg,
                 timerArmed := if s.completed then s.timerArmed else true }
      else s
  | .timerFire =>
      if s.timerArmed then
        { s with timerArmed := false, fetchCount := s.fetchCount + 1 }
      else s
  | .inject v =>
      if isComplete v then
        { s with data := v, completed := true, timerArmed := false }
      else
        { s with data := v }

/-- Run a list of scheduler events from a state. -/
def runPollEvents (s : PollState) (events : List PollEvent) : PollState :=
  events.foldl pollStep s

/-- Whether an event is an effect re-run for a changed pair. -/
def isSwitch : PollEvent → Bool
  | .switch _ => true
  | _ => false

/-- A ready session that carries the authoritative tri-state `FAIL` in its
`brand_status` field and no mismatch signals. -/
def c1BreakSession : TvAutoSyncSession :=
  { analyzer_ready := some true, brand_status := some (EvVal.str "FAIL") }

/-- An unready session carrying authoritative tri-states for the volume and
OSD metrics. -/
def c1WitnessSession : TvAutoSyncSession :=
  { volume_status := some (EvVal.str "FAIL"), osd_status := some (EvVal.str "OK") }

/-- An unready session (no `analyzer_ready`, `overall_status = "PENDING"`)
that carries the session-level tri-state `OK` for the volume metric. -/
def c2BreakSession : TvAutoSyncSession :=
  { volume_status := some (EvVal.str "OK") }

/-- An unready session with both issue flags raised and a mismatching brand
pair. -/
def c2WitnessSession : TvAutoSyncSession :=
  { has_volume_issue := true, has_osd_issue := true,
    tv_brand_user := some "LG", tv_brand_log := some "Samsung" }

/-- A session whose `finished_at` is present while `analyzer_ready` is
absent and `overall_status` is not terminal. -/
def c3BreakSession : TvAutoSyncSession :=
  { finished_at := some "2025-01-01T00:00:00Z" }

/-- An evidence payload whose log verdict is inconclusive while the tester
verdict is a definite pass, with the explicit conflict flag false. -/
def c4BreakDetails : QuicksetAnalysisDetails :=
  { tester_verdict := some "PASS", log_verdict := some "INCONCLUSIVE",
    conflict_tester_vs_logs := some false }

/-- A ready session whose tester brand is a non-empty whitespace string and
whose log brand is `"Samsung"`: the raw strings differ case-insensitively. -/
def c7BreakSession : TvAutoSyncSession :=
  { analyzer_ready := some true, tv_brand_user := some " ", tv_brand_log := some "Samsung" }

/-- A ready session with genuinely different brands `"LG"` and `"Samsung"`. -/
def c7WitnessSession : TvAutoSyncSession :=
  { analyzer_ready := some true, tv_brand_user := some "LG", tv_brand_log := some "Samsung" }

/-- A ready session with a volume issue flag, no OSD issue flag and no
tri-state metric fields anywhere. -/
def c8WitnessSession : TvAutoSyncSession :=
  { analyzer_ready := some true, has_volume_issue := true }

/-- A ready session whose `volume_status` field holds the malformed value
`"BANANA"` and whose volume issue flag is down. -/
def c9BreakSession : TvAutoSyncSession :=
  { analyzer_ready := some true, volume_status := some (EvVal.str "BANANA") }

/-- A snapshot in terminal state: `finished_at` set, `analyzer_ready` true. -/
def completedResponse : TvAutoSyncSessionResponse :=
  { session := { finished_at := some "2025-01-01T00:00:00Z", analyzer_ready := some true } }

/-- A non-terminal snapshot. -/
def runningResponse : TvAutoSyncSessionResponse :=
  { session := { overall_status := "PENDING" } }

/-- A driver state subscribed under generation 3 with one fetch in flight. -/
def c5WitnessState : PollState :=
  { generation := 3, fetchCount := 3 }

/-- A driver state subscribed under generation 1 with an armed retry timer. -/
def c6WitnessState : PollState :=
  { generation := 1, fetchCount := 1, timerArmed := true }

theorem pollStep_generation_le (s : PollState) (e : PollEvent) :
    s.generation ≤ (pollStep s e).generation := by
  cases e <;> simp only [pollStep] <;> split <;> simp

theorem runPollEvents_nil (s : PollState) : runPollEvents s [] = s := rfl

theorem runPollEvents_cons (s : PollState) (e : PollEvent) (es : List PollEvent) :
    runPollEvents s (e :: es) = runPollEvents (pollStep s e) es := rfl

theorem runPollEvents_append (s : PollState) (es fs : List PollEvent) :
    runPollEvents s (es ++ fs) = runPollEvents (runPollEvents s es) fs := by
  simp [runPollEvents, List.foldl_append]

theorem runPollEvents_generation_le (s : PollState) (es : List PollEvent) :
    s.generation ≤ (runPollEvents s es).generation := by
  induction es generalizing s with
  | nil => exact Nat.le_refl _
  | cons e es ih =>
      exact Nat.le_trans (pollStep_generation_le s e) (ih (pollStep s e))

theorem generation_lt_of_switch_mem (s : PollState) (es : List PollEvent) (b : Bool)
    (h : PollEvent.switch b ∈ es) :
    s.generation < (runPollEvents s es).generation := by
  induction es generalizing s with
  | nil => cases h
  | cons e es ih =>
      rw [runPollEvents_cons]
      rcases List.mem_cons.mp h with he | he
      · subst he
        have h1 : s.generation < (pollStep s (PollEvent.switch b)).generation := by
          simp only [pollStep]
          split <;> simp
        exact Nat.lt_of_lt_of_le h1 (runPollEvents_generation_le _ es)
      · exact Nat.lt_of_le_of_lt (pollStep_generation_le s e) (ih _ he)

theorem pollStep_resolveOk_stale (s : PollState) (g : Nat) (r : TvAutoSyncSessionResponse)
    (h : g ≠ s.generation) : pollStep s (PollEvent.resolveOk g r) = s := by
  simp [pollStep, h]

theorem pollStep_resolveErr_stale (s : PollState) (g : Nat) (msg : String)
    (h : g ≠ s.generation) : pollStep s (PollEvent.resolveErr g msg) = s := by
  simp [pollStep, h]

theorem completed_state_halts (s : PollState) (es : List PollEvent)
    (hc : s.completed = true) (ht : s.timerArmed = false)
    (hns : ∀ x ∈ es, isSwitch x = false) :
    (runPollEvents s es).completed = true ∧ (runPollEvents s es).timerArmed = false ∧
      (runPollEvents s es).fetchCount = s.fetchCount := by
  induction es generalizing s with
  | nil => exact ⟨hc, ht, rfl⟩
  | cons e es ih =>
      have hmem : ∀ x ∈ es, isSwitch x = false := fun x hx => hns x (List.mem_cons_of_mem e hx)
      rw [runPollEvents_cons]
      cases e with
      | switch valid =>
          have := hns (PollEvent.switch valid) (List.mem_cons_self _ _)
          simp [isSwitch] at this
      | resolveOk g r =>
          by_cases hg : g = s.generation
          · have hstep : (pollStep s (PollEvent.resolveOk g r)).completed = true ∧
                (pollStep s (PollEvent.resolveOk g r)).timerArmed = false ∧
                (pollStep s (PollEvent.resolveOk g r)).fetchCount = s.fetchCount := by
              simp [pollStep, hg, hc, ht]
            obtain ⟨h1, h2, h3⟩ := ih _ hstep.1 hstep.2.1 hmem
            exact ⟨h1, h2, h3.trans hstep.2.2⟩
          · rw [pollStep_resolveOk_stale s g r hg]
            exact ih s hc ht hmem
      | resolveErr g msg =>
          by_cases hg : g = s.generation
          · have hstep : (pollStep s (PollEvent.resolveErr g msg)).completed = true ∧
                (pollStep s (PollEvent.resolveErr g msg)).timerArmed = false ∧
                (pollStep s (PollEvent.resolveErr g msg)).fetchCount = s.fetchCount := by
              simp [pollStep, hg, hc, ht]
            obtain ⟨h1, h2, h3⟩ := ih _ hstep.1 hstep.2.1 hmem
            exact ⟨h1, h2, h3.trans hstep.2.2⟩
          · rw [pollStep_resolveErr_stale s g msg hg]
            exact ih s hc ht hmem
      | timerFire =>
          have hstep : pollStep s PollEvent.timerFire = s := by
            simp [pollStep, ht]
          rw [hstep]
          exact ih s hc ht hmem
      | inject v =>
          have hstep : (pollStep s (PollEvent.inject v)).completed = true ∧
              (pollStep s (PollEvent.inject v)).timerArmed = false ∧
              (pollStep s (PollEvent.inject v)).fetchCount = s.fetchCount := by
            simp only [pollStep]
            split <;> simp [hc, ht]
          obtain ⟨h1, h2, h3⟩ := ih _ hstep.1 hstep.2.1 hmem
          exact ⟨h1, h2, h3.trans hstep.2.2⟩

/-- Claim C5: after the (session id, credential) pair is switched, a fetch
response issued under the superseded generation — whether it resolves
successfully or with an error — is discarded silently: appending its
arrival to the event trace leaves the driver state unchanged, so the new
session's displayed snapshot and error channel are never overwritten by
the old session's data. -/
theorem c5_stale_generation_discarded (s : PollState) (es : List PollEvent)
    (g : Nat) (r : TvAutoSyncSessionResponse) (msg : String)
    (hg : g ≤ s.generation) (hsw : ∃ b, PollEvent.switch b ∈ es) :
    runPollEvents s (es ++ [PollEvent.resolveOk g r]) = runPollEvents s es ∧
    runPollEvents s (es ++ [PollEvent.resolveErr g msg]) = runPollEvents s es := by
  obtain ⟨b, hb⟩ := hsw
  have hlt : g < (runPollEvents s es).generation :=
    Nat.lt_of_le_of_lt hg (generation_lt_of_switch_mem s es b hb)
  have hne : g ≠ (runPollEvents s es).generation := Nat.ne_of_lt hlt
  constructor
  · rw [runPollEvents_append]
    exact pollStep_resolveOk_stale _ g r hne
  · rw [runPollEvents_append]
    exact pollStep_resolveErr_stale _ g msg hne

/-- Witness for claim C5: a request in flight under generation 3 resolves
(or rejects) after a switch to a new session; neither arrival changes the
driver state. -/
theorem c5_stale_generation_discarded_witness :
    3 ≤ c5WitnessState.generation ∧
    runPollEvents c5WitnessState ([PollEvent.switch true] ++ [PollEvent.resolveOk 3 completedResponse]) =
      runPollEvents c5WitnessState [PollEvent.switch true] ∧
    runPollEvents c5WitnessState ([PollEvent.switch true] ++ [PollEvent.resolveErr 3 "network error"]) =
      runPollEvents c5WitnessState [PollEvent.switch true] := by
  refine ⟨by decide, ?_⟩
  exact c5_stale_generation_discarded c5WitnessState [PollEvent.switch true] 3
    completedResponse "network error" (by decide) ⟨true, by decide⟩

/-- Claim C6: once a terminal snapshot (`finished_at` set and
`analyzer_ready == true`) is applied — whether it arrived as a
same-generation fetch resolution or was injected through `replaceData` —
every later scheduler event other than a pair switch leaves the fetch count
unchanged and the retry timer disarmed: no further fetch is issued and no
timer is re-armed for that pair. -/
theorem c6_terminal_state_halts (s : PollState) (e : PollEvent)
    (he : (∃ r, e = PollEvent.resolveOk s.generation r ∧ isComplete (some r) = true) ∨
          (∃ v, e = PollEvent.inject v ∧ isComplete v = true))
    (es : List PollEvent) (hns : ∀ x ∈ es, isSwitch x = false) :
    (runPollEvents (pollStep s e) es).fetchCount = s.fetchCount ∧
    (runPollEvents (pollStep s e) es).timerArmed = false := by
  have hstep : (pollStep s e).completed = true ∧ (pollStep s e).timerArmed = false ∧
      (pollStep s e).fetchCount = s.fetchCount := by
    rcases he with ⟨r, rfl, hr⟩ | ⟨v, rfl, hv⟩
    · simp [pollStep, hr]
    · simp [pollStep, hv]
  obtain ⟨h1, h2, h3⟩ := completed_state_halts (pollStep s e) es hstep.1 hstep.2.1 hns
  exact ⟨h3.trans hstep.2.2, h2⟩

/-- Witness for claim C6: injecting a terminal snapshot into a driver whose
retry timer is armed; a subsequent timer tick, a late fetch error and a
late non-terminal fetch success issue no fetch and leave the timer
disarmed. -/
theorem c6_terminal_state_halts_witness :
    isComplete (some completedResponse) = true ∧
    (runPollEvents (pollStep c6WitnessState (PollEvent.inject (some completedResponse)))
        [PollEvent.timerFire, PollEvent.resolveErr 1 "boom",
          PollEvent.resolveOk 1 runningResponse]).fetchCount = c6WitnessState.fetchCount ∧
    (runPollEvents (pollStep c6WitnessState (PollEvent.inject (some completedResponse)))
        [PollEvent.timerFire, PollEvent.resolveErr 1 "boom",
          PollEvent.resolveOk 1 runningResponse]).timerArmed = false := by
  refine ⟨by decide, ?_⟩
  exact c6_terminal_state_halts c6WitnessState (PollEvent.inject (some completedResponse))
    (Or.inr ⟨some completedResponse, rfl, by decide⟩)
    [PollEvent.timerFire, PollEvent.resolveErr 1 "boom", PollEvent.resolveOk 1 runningResponse]
    (by decide)

theorem triStateOf_sound (x : Option EvVal) (v : String) (h : triStateOf x = some v) :
    isTriStateString v = true := by
  cases x with
  | none => simp [triStateOf] at h
  | some ev =>
      cases ev with
      | other => simp [triStateOf] at h
      | str s =>
          simp only [triStateOf] at h
          split at h
          · cases h
            assumption
          · cases h

theorem resolveMetricStatus_tri (sv av : Option EvVal) (r i : Bool) :
    isTriStateString (resolveMetricStatus sv av r i) = true := by
  unfold resolveMetricStatus
  cases h1 : triStateOf sv with
  | some v => exact triStateOf_sound sv v h1
  | none =>
      cases h2 : triStateOf av with
      | some v => exact triStateOf_sound av v h2
      | none => cases r <;> cases i <;> decide

/-- Claim C1 counterexample: a ready session carrying the authoritative
session-level tri-state `FAIL` in its `brand_status` field, yet the
Reconciler's `brandStatus` output is not that value — the brand metric
ignores the session-level field. -/
theorem c1_counterexample :
    c1BreakSession.brand_status = some (EvVal.str "FAIL") ∧
    isAnalyzerResultReady c1BreakSession = true ∧
    (deriveMetricStatuses c1BreakSession none).brandStatus ≠ "FAIL" := by decide

/-- Claim C1 (amended): for the volume and OSD metrics, a session-level
tri-state value is returned verbatim by the Reconciler, regardless of
readiness, issue flags, evidence content or brand heuristics; the brand
metric does not obey this rule (see the counterexample). -/
theorem c1_session_tristate_wins_for_volume_osd (s : TvAutoSyncSession)
    (d : Option QuicksetAnalysisDetails) (v w : String) :
    (triStateOf s.volume_status = some v → (deriveMetricStatuses s d).volumeStatus = v) ∧
    (triStateOf s.osd_status = some w → (deriveMetricStatuses s d).osdStatus = w) := by
  constructor
  · intro h
    simp [deriveMetricStatuses, resolveMetricStatus, h]
  · intro h
    simp [deriveMetricStatuses, resolveMetricStatus, h]

/-- Witness for claim C1: an unready session whose session-level
`volume_status = FAIL` and `osd_status = OK` are reproduced verbatim. -/
theorem c1_session_tristate_wins_for_volume_osd_witness :
    triStateOf c1WitnessSession.volume_status = some "FAIL" ∧
    (deriveMetricStatuses c1WitnessSession none).volumeStatus = "FAIL" ∧
    triStateOf c1WitnessSession.osd_status = some "OK" ∧
    (deriveMetricStatuses c1WitnessSession none).osdStatus = "OK" :=
  ⟨by decide,
   (c1_session_tristate_wins_for_volume_osd c1WitnessSession none "FAIL" "OK").1 (by decide),
   by decide,
   (c1_session_tristate_wins_for_volume_osd c1WitnessSession none "FAIL" "OK").2 (by decide)⟩

/-- Claim C2 counterexample: an unready session whose session-level
`volume_status = OK` yields `volumeStatus = OK`, not `NOT_EVALUATED` —
an authoritative tri-state outranks the readiness gate. -/
theorem c2_counterexample :
    c2BreakSession.volume_status = some (EvVal.str "OK") ∧
    isAnalyzerResultReady c2BreakSession = false ∧
    (deriveMetricStatuses c2BreakSession none).volumeStatus ≠ "NOT_EVALUATED" := by decide

/-- Claim C2 (amended): when the readiness predicate is false, the brand
metric is always `NOT_EVALUATED`, and the volume and OSD metrics are
`NOT_EVALUATED` provided neither the session field nor the session's
analyzer payload carries a tri-state value for them (a session- or
payload-level tri-state outranks the readiness gate). -/
theorem c2_not_ready_not_evaluated (s : TvAutoSyncSession)
    (d : Option QuicksetAnalysisDetails) (h : isAnalyzerResultReady s = false) :
    (deriveMetricStatuses s d).brandStatus = "NOT_EVALUATED" ∧
    (triStateOf s.volume_status = none →
      triStateOf (s.analysis_result.bind fun p => p.volume_status) = none →
      (deriveMetricStatuses s d).volumeStatus = "NOT_EVALUATED") ∧
    (triStateOf s.osd_status = none →
      triStateOf (s.analysis_result.bind fun p => p.osd_status) = none →
      (deriveMetricStatuses s d).osdStatus = "NOT_EVALUATED") := by
  refine ⟨?_, ?_, ?_⟩
  · simp [deriveMetricStatuses, h]
  · intro h1 h2
    simp [deriveMetricStatuses, resolveMetricStatus, h, h1, h2]
  · intro h1 h2
    simp [deriveMetricStatuses, resolveMetricStatus, h, h1, h2]

/-- Witness for claim C2: an unready session with both issue flags raised
and a mismatching brand pair still reports all three metrics as
`NOT_EVALUATED`. -/
theorem c2_not_ready_not_evaluated_witness :
    isAnalyzerResultReady c2WitnessSession = false ∧
    (deriveMetricStatuses c2WitnessSession none).brandStatus = "NOT_EVALUATED" ∧
    (deriveMetricStatuses c2WitnessSession none).volumeStatus = "NOT_EVALUATED" ∧
    (deriveMetricStatuses c2WitnessSession none).osdStatus = "NOT_EVALUATED" :=
  ⟨by decide,
   (c2_not_ready_not_evaluated c2WitnessSession none (by decide)).1,
   (c2_not_ready_not_evaluated c2WitnessSession none (by decide)).2.1 (by decide) (by decide),
   (c2_not_ready_not_evaluated c2WitnessSession none (by decide)).2.2 (by decide) (by decide)⟩

/-- Claim C3 counterexample: a session with `finished_at` present but
`analyzer_ready` absent and a non-terminal `overall_status` is NOT ready,
refuting the claimed equivalence of readiness with
`finished_at present OR overall_status terminal`. -/
theorem c3_counterexample :
    ¬(isAnalyzerResultReady c3BreakSession = true ↔
      (c3BreakSession.finished_at.isSome = true ∨ c3BreakSession.overall_status = "PASS" ∨
        c3BreakSession.overall_status = "FAIL")) := by decide

/-- Claim C3 (amended): the Reconciler's readiness output is true exactly
when the session's `analyzer_ready` flag is true or its `overall_status`
is terminal (`PASS` or `FAIL`); `finished_at` plays no role in it. -/
theorem c3_readiness_formula (s : TvAutoSyncSession) :
    isAnalyzerResultReady s = true ↔
      (s.analyzer_ready = some true ∨ s.overall_status = "PASS" ∨
        s.overall_status = "FAIL") := by
  simp [isAnalyzerResultReady, or_assoc]

/-- Claim C4 counterexample: a payload whose log verdict is inconclusive
while the tester verdict is a definite pass, with the explicit conflict
flag false, does not raise the conflict indicator — refuting the claimed
disjunctive trigger. -/
theorem c4_counterexample :
    conflictDetected (some c4BreakDetails) = false ∧
    logVerdict (some c4BreakDetails) = "INCONCLUSIVE" ∧
    testerVerdict (some c4BreakDetails) = "PASS" ∧
    ¬(conflictDetected (some c4BreakDetails) = true ↔
      (c4BreakDetails.conflict_tester_vs_logs = some true ∨
        (logVerdict (some c4BreakDetails) = "INCONCLUSIVE" ∧
          testerVerdict (some c4BreakDetails) = "PASS"))) := by decide

/-- Claim C4 (amended): the consumer-visible tester/log conflict indicator
is raised exactly when the payload's explicit `conflict_tester_vs_logs`
flag is true (so a payload with the flag true always produces it,
independent of the session's `overall_status`, which the indicator never
reads); an inconclusive log verdict without the flag instead raises a
separate telemetry warning, irrespective of the tester verdict. -/
theorem c4_conflict_indicator (d : Option QuicksetAnalysisDetails) :
    (conflictDetected d = true ↔ (d.bind fun x => x.conflict_tester_vs_logs) = some true) ∧
    (telemetryWarning d = true ↔
      ¬((d.bind fun x => x.conflict_tester_vs_logs) = some true) ∧
        logVerdict d = "INCONCLUSIVE") := by
  cases d with
  | none => simp [conflictDetected, telemetryWarning, logVerdict]
  | some dd =>
      cases h : dd.conflict_tester_vs_logs with
      | none => simp [conflictDetected, telemetryWarning, logVerdict, h]
      | some b => cases b <;> simp [conflictDetected, telemetryWarning, logVerdict, h]

/-- Claim C7 counterexample: tester brand `" "` (a non-empty string) and
log brand `"Samsung"` differ case-insensitively as raw strings, yet the
ready session reports no brand mismatch and `brandStatus = OK`, because
normalization trims the tester brand away. -/
theorem c7_counterexample :
    c7BreakSession.tv_brand_user = some " " ∧
    c7BreakSession.tv_brand_log = some "Samsung" ∧
    (" " : String) ≠ "" ∧ ("Samsung" : String) ≠ "" ∧
    jsToLower " " ≠ jsToLower "Samsung" ∧
    isAnalyzerResultReady c7BreakSession = true ∧
    (deriveMetricStatuses c7BreakSession none).hasBrandMismatch = false ∧
    (deriveMetricStatuses c7BreakSession none).brandStatus = "OK" := by decide

/-- Claim C7 (amended): for a ready session whose tester and log brand
strings are both non-blank after trimming and differ case-insensitively
after trimming, the Reconciler reports `hasBrandMismatch = true` and a
`brandStatus` that is not `OK`. -/
theorem c7_brand_mismatch_nonblank (s : TvAutoSyncSession)
    (d : Option QuicksetAnalysisDetails) (u l : String)
    (hready : isAnalyzerResultReady s = true)
    (hu : s.tv_brand_user = some u) (hl : s.tv_brand_log = some l)
    (hu2 : jsTrim u ≠ "") (hl2 : jsTrim l ≠ "")
    (hdiff : jsToLower (jsTrim u) ≠ jsToLower (jsTrim l)) :
    (deriveMetricStatuses s d).hasBrandMismatch = true ∧
    (deriveMetricStatuses s d).brandStatus ≠ "OK" := by
  have hmis : brandsAreDifferent (normalizeBrandValue (s.tv_brand_user.map EvVal.str))
      (normalizeBrandValue (s.tv_brand_log.map EvVal.str)) = true := by
    simp [hu, hl, normalizeBrandValue, brandsAreDifferent, hu2, hl2, bne_iff_ne, hdiff]
  constructor
  · simp [deriveMetricStatuses, hmis]
  · simp [deriveMetricStatuses, hready, hmis]

/-- Witness for claim C7: a ready session with brands `"LG"` and
`"Samsung"` is reported as a brand mismatch with a non-`OK` status. -/
theorem c7_brand_mismatch_nonblank_witness :
    isAnalyzerResultReady c7WitnessSession = true ∧
    (deriveMetricStatuses c7WitnessSession none).hasBrandMismatch = true ∧
    (deriveMetricStatuses c7WitnessSession none).brandStatus ≠ "OK" :=
  ⟨by decide,
   (c7_brand_mismatch_nonblank c7WitnessSession none "LG" "Samsung"
     (by decide) rfl rfl (by decide) (by decide) (by decide)).1,
   (c7_brand_mismatch_nonblank c7WitnessSession none "LG" "Samsung"
     (by decide) rfl rfl (by decide) (by decide) (by decide)).2⟩

/-- Claim C8: for a ready session carrying no tri-state for the volume
metric on the session field or on the session's analyzer payload, the
volume status is the issue-flag fallback — `FAIL` when `has_volume_issue`
and `OK` otherwise; symmetrically for the OSD metric with
`has_osd_issue`. -/
theorem c8_issue_flag_fallback (s : TvAutoSyncSession)
    (d : Option QuicksetAnalysisDetails) (hready : isAnalyzerResultReady s = true) :
    (triStateOf s.volume_status = none →
      triStateOf (s.analysis_result.bind fun p => p.volume_status) = none →
      (deriveMetricStatuses s d).volumeStatus =
        if s.has_volume_issue then "FAIL" else "OK") ∧
    (triStateOf s.osd_status = none →
      triStateOf (s.analysis_result.bind fun p => p.osd_status) = none →
      (deriveMetricStatuses s d).osdStatus =
        if s.has_osd_issue then "FAIL" else "OK") := by
  constructor <;> intro h1 h2 <;>
    simp [deriveMetricStatuses, resolveMetricStatus, hready, h1, h2]

/-- Witness for claim C8: a ready session with a raised volume issue flag
and a lowered OSD issue flag, no tri-states anywhere, reports
`volumeStatus = FAIL` and `osdStatus = OK`. -/
theorem c8_issue_flag_fallback_witness :
    isAnalyzerResultReady c8WitnessSession = true ∧
    c8WitnessSession.has_volume_issue = true ∧
    c8WitnessSession.has_osd_issue = false ∧
    (deriveMetricStatuses c8WitnessSession none).volumeStatus = "FAIL" ∧
    (deriveMetricStatuses c8WitnessSession none).osdStatus = "OK" := by
  have h := c8_issue_flag_fallback c8WitnessSession none (by decide)
  refine ⟨by decide, by decide, by decide, ?_, ?_⟩
  · have h4 := h.1 (by decide) (by decide)
    simpa [c8WitnessSession] using h4
  · have h5 := h.2 (by decide) (by decide)
    simpa [c8WitnessSession] using h5

/-- Claim C9 counterexample: a ready session whose `volume_status` holds
the malformed value `"BANANA"` degrades to the issue-flag fallback `OK`,
not to `NOT_EVALUATED` as the claim states. -/
theorem c9_counterexample :
    c9BreakSession.volume_status = some (EvVal.str "BANANA") ∧
    isTriStateString "BANANA" = false ∧
    isAnalyzerResultReady c9BreakSession = true ∧
    (deriveMetricStatuses c9BreakSession none).volumeStatus = "OK" ∧
    (deriveMetricStatuses c9BreakSession none).volumeStatus ≠ "NOT_EVALUATED" := by decide

/-- Claim C9 (amended): a malformed metric value never propagates to the
Reconciler's output — every metric output is one of the four recognized
tri-states; a malformed value is skipped and resolution falls through to
the remaining sources (the payload tri-state, the readiness gate, the
issue-flag fallback), so the affected metric is `NOT_EVALUATED` only when
the session is unready. -/
theorem c9_no_malformed_propagation (s : TvAutoSyncSession)
    (d : Option QuicksetAnalysisDetails) :
    isTriStateString (deriveMetricStatuses s d).brandStatus = true ∧
    isTriStateString (deriveMetricStatuses s d).volumeStatus = true ∧
    isTriStateString (deriveMetricStatuses s d).osdStatus = true := by
  refine ⟨?_, resolveMetricStatus_tri _ _ _ _, resolveMetricStatus_tri _ _ _ _⟩
  simp only [deriveMetricStatuses]
  split
  · decide
  · split <;> decide

/-- Claim C10: the Reconciler's `brandStatus` is always one of
`NOT_EVALUATED`, `INCOMPATIBILITY`, `OK` — never `FAIL`, for every session
(including one whose `brand_status` field is `FAIL`) and every evidence
payload. -/
theorem c10_brand_status_never_fail (s : TvAutoSyncSession)
    (d : Option QuicksetAnalysisDetails) :
    (deriveMetricStatuses s d).brandStatus ≠ "FAIL" ∧
    ((deriveMetricStatuses s d).brandStatus = "NOT_EVALUATED" ∨
      (deriveMetricStatuses s d).brandStatus = "INCOMPATIBILITY" ∨
      (deriveMetricStatuses s d).brandStatus = "OK") := by
  simp only [deriveMetricStatuses]
  constructor
  · split
    · decide
    · split <;> decide
  · split
    · left
      rfl
    · split
      · right
        left
        rfl
      · right
        right
        rfl
